import Mathlib

/-!
# resthooks: notification dispatch and retry engine

A shallow embedding of `resthook.go` and `store.go`.

* `Notify`, `Resthook.DeleteById`, `NewResthook` and `retry` are translated
  statement by statement.  The collaborators the code calls (the store, the
  JSON encoder, the HTTP client, the `select` in the retry loop) are inputs:
  a store is a record of functions, the encoder's result and the first POST's
  result are arguments, and the retry loop reads a script with one entry per
  loop iteration.
* Every observable action is appended to a trace of `Event`s, so that
  "is published", "is called", "is launched" are statements about the trace.
* A nil-pointer dereference ends the run with `Outcome.panicked`.
* Go's `int` is the 64-bit two's-complement integer of the 64-bit targets;
  `time.Duration` is `int64`.  Arithmetic on them wraps (`wrapInt`).
* The result channel is unbuffered.  In `Notify` and `retry` a send on it is
  recorded as `Event.publish`; who takes the value is the subject of the
  small task model at the end of the definitions (`Sys`, `rendezvous`).
-/

namespace Resthooks

/-! ## Machine integers -/

/-- Smallest value above the range of a 64-bit signed integer, 2^63. -/
def intLimit : Int := 9223372036854775808

/-- Two's-complement reduction of an integer into the 64-bit signed range. -/
def wrapInt (x : Int) : Int := (x + intLimit) % (2 * intLimit) - intLimit

/-- The integer is representable as a 64-bit signed integer. -/
def isInt64 (x : Int) : Prop := -intLimit ≤ x ∧ x < intLimit

instance (x : Int) : Decidable (isInt64 x) := by
  unfold isInt64; exact inferInstance

/-- Nanoseconds in `time.Second`. -/
def Second : Int := 1000000000

/-- Value of `time.Duration(interval) * time.Second`, in nanoseconds. -/
def durationNs (interval : Int) : Int := wrapInt (interval * Second)

/-! ## Data model (`store.go`) -/

/-- Type `Status` with its three `iota` constants. -/
inductive Status where
  | STATUS_PENDING
  | STATUS_SUCCESS
  | STATUS_FAILED
  deriving DecidableEq, Repr

/-- Record `Subscription`. -/
structure Subscription where
  Id : Int
  UserId : Int
  Event : String
  TargetUrl : String
  deriving DecidableEq, Repr

/-- Record `Notification`; the subscription pointer is non-nil wherever a
notification is used (a nil one panics in `Notify` before any use). -/
structure Notification where
  Subscription : Resthooks.Subscription
  Data : List UInt8
  Status : Resthooks.Status
  Retries : Int
  deriving DecidableEq, Repr

/-- Error values: those made by the dispatcher and any other error a
collaborator hands back. -/
inductive Error where
  | other (msg : String)
  | invalidSubscription
  | unableToNotify (code : Int)
  deriving DecidableEq, Repr

/-- Text of an error, as `errors.New` and `fmt.Errorf` build it. -/
def Error.message : Error → String
  | .other msg => msg
  | .invalidSubscription => "Invalid subscription."
  | .unableToNotify code => "Unable to notify: " ++ toString code

/-- Interface `ResthookStore`.  A Go result pair `(*Subscription, error)` is a
pair of options (`none` is `nil`).  `Notify` calls each method at most once, so
a record of functions covers every store, stateful ones included. -/
structure ResthookStore where
  Save : Subscription → Option Error
  FindById : Int → Option Subscription × Option Error
  FindByUserId : Int → String → Option Subscription × Option Error
  DeleteById : Int → Option Error

/-! ## Dispatcher (`resthook.go`) -/

def DefaultInitialRetry : Int := 5

def DefaultRetryMultiplier : Int := 3

def DefaultMaxRetry : Int := 3

/-- Record `Config`. -/
structure Config where
  InitialRetry : Int
  RetryMultiplier : Int
  MaxRetry : Int
  deriving DecidableEq, Repr

/-- Every field of the config is a Go `int`. -/
def Config.inRange (c : Config) : Prop :=
  isInt64 c.InitialRetry ∧ isInt64 c.RetryMultiplier ∧ isInt64 c.MaxRetry

instance (c : Config) : Decidable c.inRange := by
  unfold Config.inRange; exact inferInstance

/-- Record `Resthook`, without the channel and the wait group (see `Sys`). -/
structure Resthook where
  config : Config
  store : ResthookStore

/-- Constructor `NewResthook`; the variadic `config ...Config` is a list. -/
def NewResthook (store : ResthookStore) (config : List Config) : Resthook :=
  let rh : Resthook :=
    { config :=
        { InitialRetry := DefaultInitialRetry
          RetryMultiplier := DefaultRetryMultiplier
          MaxRetry := DefaultMaxRetry }
      store := store }
  match config with
  | c :: _ => { rh with config := c }
  | [] => rh

/-- What `http.Post` hands back: a response without error, an error without
response (`resp == nil`), or both (the client returns the last response next
to the error when its redirect policy fails). -/
inductive PostResult where
  | response (code : Int)
  | transportError
  | responseWithError (code : Int)
  deriving DecidableEq, Repr

/-- Test `err == nil && resp.StatusCode < 300`. -/
def PostResult.isSuccess : PostResult → Bool
  | .response code => decide (code < 300)
  | .transportError => false
  | .responseWithError _ => false

/-- Status code of the response, when there is a response. -/
def PostResult.status? : PostResult → Option Int
  | .response code => some code
  | .transportError => none
  | .responseWithError code => some code

/-- The first attempt returns a response that `Notify` retries: a response is
there and the tests of lines 128 (success), 134 (status in [300, 400)) and 140
(status 410) all fail on it, so `go rh.retry(n)` (line 148) is reached.  A
transport error with no response is not in it: `Notify` panics on it at
line 134. -/
def PostResult.isRetryable (r : PostResult) : Bool :=
  match r.status? with
  | none => false
  | some code =>
    !r.isSuccess && !(decide (code ≥ 300 ∧ code < 400)) && !(decide (code = 410))

/-- Observable actions of the dispatcher and of a retry task. -/
inductive Event where
  | findByUserId (userId : Int) (event : String)
  | findById (id : Int)
  | deleteById (id : Int)
  | post (url : String) (body : List UInt8)
  | publish (n : Notification)
  | launchRetry (n : Notification)
  | timer (ns : Int)
  deriving DecidableEq, Repr

/-- How a call ends: it returns an error value (`none` is `nil`) or panics. -/
inductive Outcome where
  | returned (err : Option Error)
  | panicked
  deriving DecidableEq, Repr

/-- Trace and outcome of one `Notify` call. -/
structure NotifyResult where
  trace : List Event
  outcome : Outcome
  deriving DecidableEq, Repr

/-- Notifications sent on the result channel, in order. -/
def published : List Event → List Notification
  | [] => []
  | .publish n :: es => n :: published es
  | _ :: es => published es

/-- Notifications for which `go rh.retry(n)` was executed. -/
def launched : List Event → List Notification
  | [] => []
  | .launchRetry n :: es => n :: launched es
  | _ :: es => launched es

/-- Ids passed to the store's `DeleteById`. -/
def deletes : List Event → List Int
  | [] => []
  | .deleteById id :: es => id :: deletes es
  | _ :: es => deletes es

/-- Number of POSTs made. -/
def attempts : List Event → Nat
  | [] => 0
  | .post _ _ :: es => attempts es + 1
  | _ :: es => attempts es

/-- Durations (ns) of the timers that fired, in order. -/
def waits : List Event → List Int
  | [] => []
  | .timer ns :: es => ns :: waits es
  | _ :: es => waits es

/-- Method `Resthook.DeleteById`: look the subscription up first, then delete
by the id of what was found. -/
def Resthook.DeleteById (rh : Resthook) (id : Int) : List Event × Option Error :=
  match rh.store.FindById id with
  | (_, some err) => ([.findById id], some err)
  | (none, none) => ([.findById id], some .invalidSubscription)
  | (some s, none) => ([.findById id, .deleteById s.Id], rh.store.DeleteById s.Id)

/-- Method `Resthook.Notify`.  `data` is the result of `json.Marshal(data)` and
`resp` the result of the `http.Post` of the first attempt. -/
def Notify (rh : Resthook) (userId : Int) (event : String)
    (data : Except Error (List UInt8)) (resp : PostResult) : NotifyResult :=
  match rh.store.FindByUserId userId event with
  | (_, some err) => ⟨[.findByUserId userId event], .returned (some err)⟩
  | (s?, none) =>
    match data with
    | .error err => ⟨[.findByUserId userId event], .returned (some err)⟩
    | .ok out =>
      match s? with
      | none => ⟨[.findByUserId userId event], .panicked⟩
      | some s =>
        let n : Notification :=
          { Subscription := s, Data := out, Status := .STATUS_PENDING, Retries := 0 }
        let pre : List Event := [.findByUserId userId event, .post s.TargetUrl n.Data]
        if resp.isSuccess then
          ⟨pre ++ [.publish { n with Status := .STATUS_SUCCESS }], .returned none⟩
        else
          match resp.status? with
          | none => ⟨pre, .panicked⟩
          | some code =>
            if code ≥ 300 ∧ code < 400 then
              ⟨pre ++ [.publish { n with Status := .STATUS_FAILED }],
                .returned (some (.unableToNotify code))⟩
            else if code = 410 then
              let d := rh.DeleteById s.Id
              ⟨pre ++ [.publish { n with Status := .STATUS_FAILED }] ++ d.1, .returned d.2⟩
            else
              ⟨pre ++ [.launchRetry n], .returned none⟩

/-- One iteration of the `for`/`select` of `retry`, as the environment decides
it: the result channel was found closed, a value was received from it, or the
timer elapsed and the POST that follows gave `r`. -/
inductive SelectEvent where
  | closed
  | received
  | elapsed (r : PostResult)
  deriving DecidableEq, Repr

/-- Where a retry task stands when its script ends. -/
inductive RetryExit where
  | terminal
  | shutdown
  | waiting (interval : Int)
  deriving DecidableEq, Repr

/-- Trace, notification and position of a retry task. -/
structure RetryResult where
  trace : List Event
  n : Notification
  exit : RetryExit
  deriving DecidableEq, Repr

/-- Loop of `retry` (lines 156 to 182), from the current `interval` and
notification; the script decides each `select`.  A closed channel ends the
task.  A received value is dropped and the loop re-enters the `select`, which
arms a fresh timer for the same interval.  When the timer elapses the trace
records the duration it was armed with, then the POST; the counter is advanced
before the POST and the interval is multiplied after every failed one. -/
def retryLoop (cfg : Config) : Int → Notification → List SelectEvent → RetryResult
  | interval, n, [] => ⟨[], n, .waiting interval⟩
  | _, n, .closed :: _ => ⟨[], n, .shutdown⟩
  | interval, n, .received :: rest => retryLoop cfg interval n rest
  | interval, n, .elapsed r :: rest =>
    let n1 : Notification := { n with Retries := wrapInt (n.Retries + 1) }
    let pre : List Event :=
      [.timer (durationNs interval), .post n1.Subscription.TargetUrl n1.Data]
    if r.isSuccess then
      let n2 : Notification := { n1 with Status := .STATUS_SUCCESS }
      ⟨pre ++ [.publish n2], n2, .terminal⟩
    else
      let interval1 := wrapInt (interval * cfg.RetryMultiplier)
      if n1.Retries = cfg.MaxRetry then
        let n2 : Notification := { n1 with Status := .STATUS_FAILED }
        ⟨pre ++ [.publish n2], n2, .terminal⟩
      else
        let rr := retryLoop cfg interval1 n1 rest
        ⟨pre ++ rr.trace, rr.n, rr.exit⟩

/-- Method `Resthook.retry`: the loop, entered with `rh.config.InitialRetry`. -/
def retry (rh : Resthook) (n : Notification) (script : List SelectEvent) : RetryResult :=
  retryLoop rh.config rh.config.InitialRetry n script

/-- Responses of the POSTs a script offers, in order. -/
def timerResponses : List SelectEvent → List PostResult
  | [] => []
  | .elapsed r :: es => r :: timerResponses es
  | _ :: es => timerResponses es

/-- The script never finds the result channel closed. -/
def noShutdown (script : List SelectEvent) : Prop := SelectEvent.closed ∉ script

instance (script : List SelectEvent) : Decidable (noShutdown script) := by
  unfold noShutdown; exact inferInstance

/-- Notification that `Notify` builds before the first attempt. -/
def pendingNotification (s : Subscription) (out : List UInt8) : Notification :=
  { Subscription := s, Data := out, Status := .STATUS_PENDING, Retries := 0 }

/-! ## Tasks sharing the result channel

`NewResthook` starts a goroutine that loops over a `select` with a receive on
the result channel; every retry task does the same between attempts; `Notify`
and the retry tasks send on it; the application may read `GetResults()`.  The
channel is unbuffered: a send completes exactly when it is paired with one
goroutine that is ready to receive. -/

/-- A goroutine at the point where it touches the result channel. -/
inductive Goroutine where
  /-- Goroutine of `NewResthook`, at its `select` (lines 57 to 70). -/
  | reaper
  /-- Retry task at its `select` (lines 157 to 165). -/
  | retryWait (interval : Int) (n : Notification)
  /-- A `Notify` call or a retry task at `rh.result <- n`. -/
  | sending (n : Notification)
  /-- Application goroutine at a receive from `GetResults()`. -/
  | observer
  /-- Past the channel operation. -/
  | exited
  deriving DecidableEq, Repr

/-- The goroutine has a receive on the result channel ready. -/
def Goroutine.canReceive : Goroutine → Bool
  | .reaper => true
  | .retryWait _ _ => true
  | .observer => true
  | .sending _ => false
  | .exited => false

/-- Channel and goroutines of one dispatcher: whether `Close` has closed the
channel, the goroutines, the values the observer received and the values a
goroutine of the dispatcher received (its `case _, ok := <-rh.result` drops
them). -/
structure Sys where
  closed : Bool
  tasks : List Goroutine
  observed : List Notification
  discarded : List Notification
  deriving DecidableEq, Repr

/-- State right after `NewResthook`: an open channel and the reaper. -/
def Sys.init : Sys :=
  { closed := false, tasks := [.reaper], observed := [], discarded := [] }

/-- A goroutine joins. -/
def Sys.spawn (s : Sys) (g : Goroutine) : Sys := { s with tasks := s.tasks ++ [g] }

/-- The send of goroutine `i` is paired with the receive of goroutine `j`.
The sender goes on (and is done with the channel); a receiving reaper or retry
task takes the `ok` branch, drops the value and is back at its `select`; the
observer keeps the value. -/
def rendezvous (s : Sys) (i j : Nat) : Option Sys :=
  if s.closed then none
  else
    match s.tasks.get? i, s.tasks.get? j with
    | some (.sending n), some g =>
      if g.canReceive then
        if g = .observer then
          some { s with tasks := s.tasks.set i .exited, observed := s.observed ++ [n] }
        else
          some { s with tasks := s.tasks.set i .exited, discarded := s.discarded ++ [n] }
      else none
    | _, _ => none

/-- No goroutine of the application reads `GetResults()`. -/
def Sys.noObserver (s : Sys) : Prop := Goroutine.observer ∉ s.tasks

instance (s : Sys) : Decidable s.noObserver := by
  unfold Sys.noObserver; exact inferInstance

/-! ## Sample inputs (those of `resthook_test.go`) -/

/-- Subscription used by the tests. -/
def sampleSubscription : Subscription :=
  { Id := 1, UserId := 1, Event := "post_created", TargetUrl := "http://127.0.0.1:8080" }

/-- Store of `TestNotifyPostGone`: every lookup finds the subscription, the
delete succeeds. -/
def sampleStore : ResthookStore :=
  { Save := fun _ => none
    FindById := fun _ => (some sampleSubscription, none)
    FindByUserId := fun _ _ => (some sampleSubscription, none)
    DeleteById := fun _ => none }

/-- Store of `TestNotifyInvalidUser`: the lookup by user fails. -/
def invalidUserStore : ResthookStore :=
  { sampleStore with FindByUserId := fun _ _ => (none, some (.other "User not fould.")) }

/-- A store that finds the subscription by user and event but whose `FindById`
fails. -/
def findByIdFailsStore : ResthookStore :=
  { sampleStore with FindById := fun _ => (none, some (.other "store unavailable")) }

/-- Config of `TestNotifyPostRetryMax` and `TestNotifyPostRetry`. -/
def testConfig : Config := { InitialRetry := 1, RetryMultiplier := 1, MaxRetry := 2 }

/-- Notification that `Notify` publishes for the sample subscription and an
empty payload when the first attempt succeeds. -/
def sampleDelivered : Notification :=
  { Subscription := sampleSubscription, Data := [], Status := .STATUS_SUCCESS, Retries := 0 }

/-- Value of `Config{}`: no field set. -/
def zeroConfig : Config := { InitialRetry := 0, RetryMultiplier := 0, MaxRetry := 0 }

/-- A config whose second interval does not fit a `time.Duration`. -/
def wideConfig : Config := { InitialRetry := 1, RetryMultiplier := 10000000000, MaxRetry := 2 }

/-- Script of `count` timer expiries, each followed by a POST answered 400. -/
def alwaysBadRequest (count : Nat) : List SelectEvent :=
  (List.replicate count (PostResult.response 400)).map .elapsed

/-! ## Notify: first attempt -/

/-- C1: when the lookup and the serialization succeed and the first POST has no
error and a status below 300, `Notify` publishes exactly one notification, with
status SUCCESS, retry count 0 and the looked-up subscription, returns nil,
launches no retry task, makes one POST and never calls the store's delete. -/
theorem Notify_first_attempt_success (rh : Resthook) (userId : Int) (event : String)
    (s : Subscription) (out : List UInt8) (code : Int)
    (hfind : rh.store.FindByUserId userId event = (some s, none)) (hcode : code < 300) :
    published (Notify rh userId event (.ok out) (.response code)).trace
        = [{ Subscription := s, Data := out, Status := .STATUS_SUCCESS, Retries := 0 }]
      ∧ (Notify rh userId event (.ok out) (.response code)).outcome = .returned none
      ∧ launched (Notify rh userId event (.ok out) (.response code)).trace = []
      ∧ deletes (Notify rh userId event (.ok out) (.response code)).trace = []
      ∧ attempts (Notify rh userId event (.ok out) (.response code)).trace = 1 := by
  simp [Notify, hfind, PostResult.isSuccess, hcode, published, launched, deletes, attempts]

theorem Notify_first_attempt_success_witness :
    (NewResthook sampleStore []).store.FindByUserId 1 "post_created"
        = (some sampleSubscription, none)
      ∧ (200 : Int) < 300
      ∧ published (Notify (NewResthook sampleStore []) 1 "post_created" (.ok [])
            (.response 200)).trace
          = [{ Subscription := sampleSubscription, Data := [],
               Status := .STATUS_SUCCESS, Retries := 0 }]
      ∧ (Notify (NewResthook sampleStore []) 1 "post_created" (.ok [])
            (.response 200)).outcome = .returned none
      ∧ launched (Notify (NewResthook sampleStore []) 1 "post_created" (.ok [])
            (.response 200)).trace = []
      ∧ deletes (Notify (NewResthook sampleStore []) 1 "post_created" (.ok [])
            (.response 200)).trace = []
      ∧ attempts (Notify (NewResthook sampleStore []) 1 "post_created" (.ok [])
            (.response 200)).trace = 1 :=
  ⟨rfl, by decide,
    Notify_first_attempt_success (NewResthook sampleStore []) 1 "post_created"
      sampleSubscription [] 200 rfl (by decide)⟩

/-- C7: when the store's lookup by user id and event returns an error, `Notify`
returns that error and does nothing else: its whole trace is the lookup, so no
POST is made, nothing is published, no retry task is launched and the store's
delete is not called, whatever the payload and the endpoint would have given. -/
theorem Notify_lookup_error (rh : Resthook) (userId : Int) (event : String)
    (s? : Option Subscription) (err : Error) (data : Except Error (List UInt8))
    (resp : PostResult)
    (hfind : rh.store.FindByUserId userId event = (s?, some err)) :
    Notify rh userId event data resp
        = ⟨[.findByUserId userId event], .returned (some err)⟩
      ∧ attempts (Notify rh userId event data resp).trace = 0
      ∧ published (Notify rh userId event data resp).trace = []
      ∧ launched (Notify rh userId event data resp).trace = []
      ∧ deletes (Notify rh userId event data resp).trace = [] := by
  simp [Notify, hfind, published, launched, deletes, attempts]

theorem Notify_lookup_error_witness :
    (NewResthook invalidUserStore []).store.FindByUserId 1 "post_created"
        = (none, some (.other "User not fould."))
      ∧ Notify (NewResthook invalidUserStore []) 1 "post_created" (.ok []) (.response 200)
          = ⟨[.findByUserId 1 "post_created"], .returned (some (.other "User not fould."))⟩
      ∧ attempts (Notify (NewResthook invalidUserStore []) 1 "post_created" (.ok [])
          (.response 200)).trace = 0
      ∧ published (Notify (NewResthook invalidUserStore []) 1 "post_created" (.ok [])
          (.response 200)).trace = []
      ∧ launched (Notify (NewResthook invalidUserStore []) 1 "post_created" (.ok [])
          (.response 200)).trace = []
      ∧ deletes (Notify (NewResthook invalidUserStore []) 1 "post_created" (.ok [])
          (.response 200)).trace = [] :=
  ⟨rfl,
    Notify_lookup_error (NewResthook invalidUserStore []) 1 "post_created" none
      (.other "User not fould.") (.ok []) (.response 200) rfl⟩

/-- C6: when the first POST returns a status code in [300, 400), `Notify`
publishes exactly one notification, with status FAILED and retry count 0,
returns the non-nil error "Unable to notify: <code>", launches no retry task
and never calls the store's delete. -/
theorem Notify_first_attempt_redirect (rh : Resthook) (userId : Int) (event : String)
    (s : Subscription) (out : List UInt8) (resp : PostResult) (code : Int)
    (hfind : rh.store.FindByUserId userId event = (some s, none))
    (hstatus : resp.status? = some code) (hlo : 300 ≤ code) (hhi : code < 400) :
    published (Notify rh userId event (.ok out) resp).trace
        = [{ Subscription := s, Data := out, Status := .STATUS_FAILED, Retries := 0 }]
      ∧ (Notify rh userId event (.ok out) resp).outcome
          = .returned (some (.unableToNotify code))
      ∧ (Error.unableToNotify code).message = "Unable to notify: " ++ toString code
      ∧ launched (Notify rh userId event (.ok out) resp).trace = []
      ∧ deletes (Notify rh userId event (.ok out) resp).trace = []
      ∧ attempts (Notify rh userId event (.ok out) resp).trace = 1 := by
  have hns : resp.isSuccess = false := by
    cases resp with
    | response c =>
      simp only [PostResult.status?, Option.some.injEq] at hstatus
      subst hstatus
      simp only [PostResult.isSuccess, decide_eq_false_iff_not]
      omega
    | transportError => rfl
    | responseWithError c => rfl
  simp [Notify, hfind, hns, hstatus, hlo, hhi, Error.message, published, launched, deletes,
    attempts]

theorem Notify_first_attempt_redirect_witness :
    (NewResthook sampleStore []).store.FindByUserId 1 "post_created"
        = (some sampleSubscription, none)
      ∧ (PostResult.response 302).status? = some 302
      ∧ (300 : Int) ≤ 302 ∧ (302 : Int) < 400
      ∧ published (Notify (NewResthook sampleStore []) 1 "post_created" (.ok [])
            (.response 302)).trace
          = [{ Subscription := sampleSubscription, Data := [],
               Status := .STATUS_FAILED, Retries := 0 }]
      ∧ (Notify (NewResthook sampleStore []) 1 "post_created" (.ok [])
            (.response 302)).outcome = .returned (some (.unableToNotify 302))
      ∧ (Error.unableToNotify 302).message = "Unable to notify: " ++ toString (302 : Int)
      ∧ launched (Notify (NewResthook sampleStore []) 1 "post_created" (.ok [])
            (.response 302)).trace = []
      ∧ deletes (Notify (NewResthook sampleStore []) 1 "post_created" (.ok [])
            (.response 302)).trace = []
      ∧ attempts (Notify (NewResthook sampleStore []) 1 "post_created" (.ok [])
            (.response 302)).trace = 1 :=
  ⟨rfl, rfl, by decide, by decide,
    Notify_first_attempt_redirect (NewResthook sampleStore []) 1 "post_created"
      sampleSubscription [] (.response 302) 302 rfl rfl (by decide) (by decide)⟩

/-- C5 (the code at the failing input): when the first POST fails with a
transport error and no response, `Notify` evaluates `resp.StatusCode` on the
nil response at line 134 and panics: it has made the lookup and the POST,
returns nothing, publishes nothing and launches no retry task. -/
theorem Notify_first_attempt_transport_error (rh : Resthook) (userId : Int)
    (event : String) (s : Subscription) (out : List UInt8)
    (hfind : rh.store.FindByUserId userId event = (some s, none)) :
    Notify rh userId event (.ok out) .transportError
        = ⟨[.findByUserId userId event, .post s.TargetUrl out], .panicked⟩
      ∧ launched (Notify rh userId event (.ok out) .transportError).trace = []
      ∧ published (Notify rh userId event (.ok out) .transportError).trace = [] := by
  simp [Notify, hfind, PostResult.isSuccess, PostResult.status?, published, launched]

theorem Notify_first_attempt_transport_error_witness :
    (NewResthook sampleStore []).store.FindByUserId 1 "post_created"
        = (some sampleSubscription, none)
      ∧ Notify (NewResthook sampleStore []) 1 "post_created" (.ok []) .transportError
          = ⟨[.findByUserId 1 "post_created", .post sampleSubscription.TargetUrl []],
              .panicked⟩
      ∧ launched (Notify (NewResthook sampleStore []) 1 "post_created" (.ok [])
          .transportError).trace = []
      ∧ published (Notify (NewResthook sampleStore []) 1 "post_created" (.ok [])
          .transportError).trace = [] :=
  ⟨rfl,
    Notify_first_attempt_transport_error (NewResthook sampleStore []) 1 "post_created"
      sampleSubscription [] rfl⟩

/-- C2 as stated fails: with a store whose `FindById` returns an error, a first
attempt answered 410 publishes the FAILED notification, but the store's
`DeleteById` is never called and `Notify` returns the lookup's error. -/
theorem Notify_gone_counterexample :
    (PostResult.response 410).status? = some 410
      ∧ (NewResthook findByIdFailsStore []).store.FindByUserId 1 "post_created"
          = (some sampleSubscription, none)
      ∧ deletes (Notify (NewResthook findByIdFailsStore []) 1 "post_created" (.ok [])
          (.response 410)).trace = []
      ∧ deletes (Notify (NewResthook findByIdFailsStore []) 1 "post_created" (.ok [])
          (.response 410)).trace ≠ [sampleSubscription.Id]
      ∧ (Notify (NewResthook findByIdFailsStore []) 1 "post_created" (.ok [])
          (.response 410)).outcome = .returned (some (.other "store unavailable")) := by
  decide

/-- C2, amended: when the first POST returns status 410, `Notify` publishes
exactly one notification, with status FAILED, launches no retry task, and
returns what the dispatcher's `DeleteById` returns for the subscription's id.
That method first asks the store's `FindById`: if it finds a subscription, the
store's `DeleteById` is called once, with the id of the subscription found, and
`Notify` returns the error of that deletion (nil when it succeeds); if the
lookup returns an error, or nothing, the store's `DeleteById` is not called and
`Notify` returns the lookup's error, or "Invalid subscription.". -/
theorem Notify_first_attempt_gone (rh : Resthook) (userId : Int) (event : String)
    (s : Subscription) (out : List UInt8) (resp : PostResult)
    (hfind : rh.store.FindByUserId userId event = (some s, none))
    (hstatus : resp.status? = some 410) :
    published (Notify rh userId event (.ok out) resp).trace
        = [{ Subscription := s, Data := out, Status := .STATUS_FAILED, Retries := 0 }]
      ∧ launched (Notify rh userId event (.ok out) resp).trace = []
      ∧ attempts (Notify rh userId event (.ok out) resp).trace = 1
      ∧ (Notify rh userId event (.ok out) resp).outcome = .returned (rh.DeleteById s.Id).2
      ∧ (∀ found : Subscription, rh.store.FindById s.Id = (some found, none) →
          deletes (Notify rh userId event (.ok out) resp).trace = [found.Id]
            ∧ (Notify rh userId event (.ok out) resp).outcome
                = .returned (rh.store.DeleteById found.Id))
      ∧ (∀ (x : Option Subscription) (err : Error),
          rh.store.FindById s.Id = (x, some err) →
          deletes (Notify rh userId event (.ok out) resp).trace = []
            ∧ (Notify rh userId event (.ok out) resp).outcome = .returned (some err))
      ∧ (rh.store.FindById s.Id = (none, none) →
          deletes (Notify rh userId event (.ok out) resp).trace = []
            ∧ (Notify rh userId event (.ok out) resp).outcome
                = .returned (some .invalidSubscription)) := by
  have hns : resp.isSuccess = false := by
    cases resp with
    | response c =>
      simp only [PostResult.status?, Option.some.injEq] at hstatus
      subst hstatus
      decide
    | transportError => rfl
    | responseWithError c => rfl
  have hrun : Notify rh userId event (.ok out) resp
      = ⟨[.findByUserId userId event, .post s.TargetUrl out,
            .publish { Subscription := s, Data := out, Status := .STATUS_FAILED,
                       Retries := 0 }] ++ (rh.DeleteById s.Id).1,
          .returned (rh.DeleteById s.Id).2⟩ := by
    simp [Notify, hfind, hns, hstatus]
  rw [hrun]
  refine ⟨?_, ?_, ?_, rfl, ?_, ?_, ?_⟩
  · rcases h : rh.store.FindById s.Id with ⟨_ | found, _ | err⟩ <;>
      simp [Resthook.DeleteById, h, published]
  · rcases h : rh.store.FindById s.Id with ⟨_ | found, _ | err⟩ <;>
      simp [Resthook.DeleteById, h, launched]
  · rcases h : rh.store.FindById s.Id with ⟨_ | found, _ | err⟩ <;>
      simp [Resthook.DeleteById, h, attempts]
  · intro found h
    simp [Resthook.DeleteById, h, deletes]
  · intro x err h
    simp [Resthook.DeleteById, h, deletes]
  · intro h
    simp [Resthook.DeleteById, h, deletes]

theorem Notify_first_attempt_gone_witness :
    (NewResthook sampleStore []).store.FindByUserId 1 "post_created"
        = (some sampleSubscription, none)
      ∧ (PostResult.response 410).status? = some 410
      ∧ (NewResthook sampleStore []).store.FindById sampleSubscription.Id
          = (some sampleSubscription, none)
      ∧ published (Notify (NewResthook sampleStore []) 1 "post_created" (.ok [])
            (.response 410)).trace
          = [{ Subscription := sampleSubscription, Data := [],
               Status := .STATUS_FAILED, Retries := 0 }]
      ∧ deletes (Notify (NewResthook sampleStore []) 1 "post_created" (.ok [])
            (.response 410)).trace = [sampleSubscription.Id]
      ∧ (Notify (NewResthook sampleStore []) 1 "post_created" (.ok [])
            (.response 410)).outcome = .returned none :=
  have h := Notify_first_attempt_gone (NewResthook sampleStore []) 1 "post_created"
    sampleSubscription [] (.response 410) rfl rfl
  ⟨rfl, rfl, rfl, h.1, (h.2.2.2.2.1 sampleSubscription rfl).1,
    (h.2.2.2.2.1 sampleSubscription rfl).2⟩

/-! ## Machine integers: facts -/

theorem wrapInt_eq_self {x : Int} (h : isInt64 x) : wrapInt x = x := by
  unfold isInt64 intLimit at h
  unfold wrapInt intLimit
  omega

theorem wrapInt_isInt64 (x : Int) : isInt64 (wrapInt x) := by
  unfold isInt64 wrapInt intLimit
  omega

theorem wrapInt_add_wrapInt (a b : Int) : wrapInt (wrapInt a + b) = wrapInt (a + b) := by
  unfold wrapInt intLimit
  omega

theorem wrapInt_mul_wrapInt (a b : Int) : wrapInt (wrapInt a * b) = wrapInt (a * b) := by
  have h : wrapInt a = a + (2 * intLimit) * (-((a + intLimit) / (2 * intLimit))) := by
    have := Int.emod_def (a + intLimit) (2 * intLimit)
    unfold wrapInt
    rw [this]
    ring
  rw [h]
  unfold wrapInt
  have e : (a + 2 * intLimit * -((a + intLimit) / (2 * intLimit))) * b + intLimit
      = (a * b + intLimit) + (2 * intLimit) * (-((a + intLimit) / (2 * intLimit)) * b) := by
    ring
  rw [e, Int.add_mul_emod_self_left]

/-! ## The retry loop: structure of a run -/

theorem retryLoop_received (cfg : Config) (interval : Int) (n : Notification)
    (rest : List SelectEvent) :
    retryLoop cfg interval n (.received :: rest) = retryLoop cfg interval n rest := by
  simp [retryLoop]

theorem retryLoop_elapsed_success (cfg : Config) (interval : Int) (n : Notification)
    (r : PostResult) (rest : List SelectEvent) (hr : r.isSuccess = true) :
    retryLoop cfg interval n (.elapsed r :: rest)
      = ⟨[.timer (durationNs interval), .post n.Subscription.TargetUrl n.Data,
            .publish { n with Retries := wrapInt (n.Retries + 1),
                              Status := .STATUS_SUCCESS }],
          { n with Retries := wrapInt (n.Retries + 1), Status := .STATUS_SUCCESS },
          .terminal⟩ := by
  simp [retryLoop, hr]

theorem retryLoop_elapsed_exhausted (cfg : Config) (interval : Int) (n : Notification)
    (r : PostResult) (rest : List SelectEvent) (hr : r.isSuccess = false)
    (hm : wrapInt (n.Retries + 1) = cfg.MaxRetry) :
    retryLoop cfg interval n (.elapsed r :: rest)
      = ⟨[.timer (durationNs interval), .post n.Subscription.TargetUrl n.Data,
            .publish { n with Retries := wrapInt (n.Retries + 1),
                              Status := .STATUS_FAILED }],
          { n with Retries := wrapInt (n.Retries + 1), Status := .STATUS_FAILED },
          .terminal⟩ := by
  simp [retryLoop, hr, hm]

theorem retryLoop_elapsed_continue (cfg : Config) (interval : Int) (n : Notification)
    (r : PostResult) (rest : List SelectEvent) (hr : r.isSuccess = false)
    (hm : wrapInt (n.Retries + 1) ≠ cfg.MaxRetry) :
    retryLoop cfg interval n (.elapsed r :: rest)
      = ⟨.timer (durationNs interval) :: .post n.Subscription.TargetUrl n.Data ::
            (retryLoop cfg (wrapInt (interval * cfg.RetryMultiplier))
              { n with Retries := wrapInt (n.Retries + 1) } rest).trace,
          (retryLoop cfg (wrapInt (interval * cfg.RetryMultiplier))
              { n with Retries := wrapInt (n.Retries + 1) } rest).n,
          (retryLoop cfg (wrapInt (interval * cfg.RetryMultiplier))
              { n with Retries := wrapInt (n.Retries + 1) } rest).exit⟩ := by
  simp [retryLoop, hr, hm]

/-- Without shutdown a run depends on the script only through the responses of
its attempts: receives leave the loop where it is. -/
theorem retryLoop_eq_map_timerResponses (cfg : Config) :
    ∀ (script : List SelectEvent) (interval : Int) (n : Notification),
      noShutdown script →
      retryLoop cfg interval n script
        = retryLoop cfg interval n ((timerResponses script).map .elapsed) := by
  intro script
  induction script with
  | nil => intro interval n _; rfl
  | cons e rest ih =>
    intro interval n hs
    have hrest : noShutdown rest := fun h => hs (List.mem_cons_of_mem _ h)
    cases e with
    | closed => exact absurd (List.mem_cons_self _ _) hs
    | received =>
      rw [retryLoop_received]
      exact ih interval n hrest
    | elapsed r =>
      simp only [retryLoop, timerResponses, List.map_cons]
      rw [ih _ _ hrest]

/-- Once the loop is past a prefix of the script and still waiting, the rest of
the run is the run on the remaining script from the interval and notification
reached. -/
theorem retryLoop_append (cfg : Config) :
    ∀ (s1 s2 : List SelectEvent) (interval : Int) (n : Notification) (next : Int),
      (retryLoop cfg interval n s1).exit = .waiting next →
      retryLoop cfg interval n (s1 ++ s2)
        = ⟨(retryLoop cfg interval n s1).trace
              ++ (retryLoop cfg next (retryLoop cfg interval n s1).n s2).trace,
            (retryLoop cfg next (retryLoop cfg interval n s1).n s2).n,
            (retryLoop cfg next (retryLoop cfg interval n s1).n s2).exit⟩ := by
  intro s1
  induction s1 with
  | nil =>
    intro s2 interval n next h
    simp only [retryLoop, RetryExit.waiting.injEq] at h
    subst h
    simp [retryLoop]
  | cons e rest ih =>
    intro s2 interval n next h
    cases e with
    | closed => simp [retryLoop] at h
    | received =>
      rw [retryLoop_received] at h
      rw [List.cons_append, retryLoop_received, retryLoop_received]
      exact ih s2 interval n next h
    | elapsed r =>
      rw [List.cons_append]
      cases hr : r.isSuccess with
      | true =>
        rw [retryLoop_elapsed_success _ _ _ _ _ hr] at h
        simp at h
      | false =>
        by_cases hm : wrapInt (n.Retries + 1) = cfg.MaxRetry
        · rw [retryLoop_elapsed_exhausted _ _ _ _ _ hr hm] at h
          simp at h
        · rw [retryLoop_elapsed_continue _ _ _ _ _ hr hm] at h ⊢
          rw [retryLoop_elapsed_continue _ _ _ _ _ hr hm]
          simp only at h ⊢
          rw [ih s2 _ _ next h]
          simp

/-- A first attempt that reaches the retry launch: `Notify` has made the lookup
and the POST, started the retry task on the pending notification and returned
nil. -/
theorem Notify_retryable (rh : Resthook) (userId : Int) (event : String)
    (s : Subscription) (out : List UInt8) (resp : PostResult)
    (hfind : rh.store.FindByUserId userId event = (some s, none))
    (hfirst : resp.isRetryable = true) :
    Notify rh userId event (.ok out) resp
      = ⟨[.findByUserId userId event, .post s.TargetUrl out,
            .launchRetry (pendingNotification s out)], .returned none⟩ := by
  unfold PostResult.isRetryable at hfirst
  cases hst : resp.status? with
  | none => simp [hst] at hfirst
  | some code =>
    simp only [hst, Bool.and_eq_true, Bool.not_eq_true', decide_eq_false_iff_not] at hfirst
    obtain ⟨⟨hns, h3⟩, h410⟩ := hfirst
    simp [Notify, hfind, hns, hst, h3, h410, pendingNotification]

/-- A first attempt that fails with no response: `Notify` has made the lookup
and the POST and panics on `resp.StatusCode` (line 134); no retry task is
started. -/
theorem Notify_no_response (rh : Resthook) (userId : Int) (event : String)
    (s : Subscription) (out : List UInt8)
    (hfind : rh.store.FindByUserId userId event = (some s, none)) :
    Notify rh userId event (.ok out) .transportError
      = ⟨[.findByUserId userId event, .post s.TargetUrl out], .panicked⟩ := by
  simp [Notify, hfind, PostResult.isSuccess, PostResult.status?]

/-- Run in which every offered attempt up to the maximum fails. -/
theorem retryLoop_exhaust (cfg : Config) (hrange : isInt64 cfg.MaxRetry) :
    ∀ (fails : List PostResult) (rest : List SelectEvent) (interval : Int)
      (n : Notification),
      fails ≠ [] → (∀ r ∈ fails, r.isSuccess = false) → 0 ≤ n.Retries →
      n.Retries + fails.length = cfg.MaxRetry →
      retryLoop cfg interval n (fails.map .elapsed ++ rest)
        = ⟨(retryLoop cfg interval n (fails.map .elapsed ++ rest)).trace,
            { n with Retries := cfg.MaxRetry, Status := .STATUS_FAILED }, .terminal⟩
        ∧ attempts (retryLoop cfg interval n (fails.map .elapsed ++ rest)).trace
            = fails.length
        ∧ published (retryLoop cfg interval n (fails.map .elapsed ++ rest)).trace
            = [{ n with Retries := cfg.MaxRetry, Status := .STATUS_FAILED }]
        ∧ deletes (retryLoop cfg interval n (fails.map .elapsed ++ rest)).trace = [] := by
  intro fails
  induction fails with
  | nil => intro _ _ _ h; exact absurd rfl h
  | cons r fs ih =>
    intro rest interval n _ hfail hpos hsum
    have hr : r.isSuccess = false := hfail r (List.mem_cons_self _ _)
    have hfs : ∀ x ∈ fs, x.isSuccess = false := fun x hx => hfail x (List.mem_cons_of_mem _ hx)
    have hw : wrapInt (n.Retries + 1) = n.Retries + 1 := by
      apply wrapInt_eq_self
      unfold isInt64 at hrange ⊢
      simp only [List.length_cons, Nat.cast_add, Nat.cast_one] at hsum
      omega
    rw [List.map_cons, List.cons_append]
    by_cases hnil : fs = []
    · subst hnil
      have hm : wrapInt (n.Retries + 1) = cfg.MaxRetry := by
        rw [hw]; simpa using hsum
      rw [retryLoop_elapsed_exhausted _ _ _ _ _ hr hm]
      simp [hm, attempts, published, deletes]
    · have hm : wrapInt (n.Retries + 1) ≠ cfg.MaxRetry := by
        rw [hw]
        have : 0 < fs.length := List.length_pos.mpr hnil
        simp only [List.length_cons, Nat.cast_add, Nat.cast_one] at hsum
        omega
      rw [retryLoop_elapsed_continue _ _ _ _ _ hr hm]
      have hsum1 : (wrapInt (n.Retries + 1)) + fs.length = cfg.MaxRetry := by
        rw [hw]
        simp only [List.length_cons, Nat.cast_add, Nat.cast_one] at hsum
        omega
      have hpos1 : 0 ≤ wrapInt (n.Retries + 1) := by rw [hw]; omega
      obtain ⟨h1, h2, h3, h4⟩ :=
        ih rest (wrapInt (interval * cfg.RetryMultiplier))
          { n with Retries := wrapInt (n.Retries + 1) } hnil hfs hpos1 hsum1
      refine ⟨?_, ?_, ?_, ?_⟩
      · rw [h1]
      · simp only [attempts, h2, List.length_cons]
      · simp only [published, h3]
      · simp only [deletes, h4]

/-- Run in which an attempt within the maximum succeeds after failures. -/
theorem retryLoop_succeed (cfg : Config) (hrange : isInt64 cfg.MaxRetry) :
    ∀ (fails : List PostResult) (succ : PostResult) (rest : List SelectEvent)
      (interval : Int) (n : Notification),
      (∀ r ∈ fails, r.isSuccess = false) → succ.isSuccess = true → 0 ≤ n.Retries →
      n.Retries + fails.length + 1 ≤ cfg.MaxRetry →
      retryLoop cfg interval n (fails.map .elapsed ++ .elapsed succ :: rest)
        = ⟨(retryLoop cfg interval n (fails.map .elapsed ++ .elapsed succ :: rest)).trace,
            { n with Retries := n.Retries + fails.length + 1, Status := .STATUS_SUCCESS },
            .terminal⟩
        ∧ attempts (retryLoop cfg interval n
            (fails.map .elapsed ++ .elapsed succ :: rest)).trace = fails.length + 1
        ∧ published (retryLoop cfg interval n
            (fails.map .elapsed ++ .elapsed succ :: rest)).trace
            = [{ n with Retries := n.Retries + fails.length + 1,
                        Status := .STATUS_SUCCESS }]
        ∧ deletes (retryLoop cfg interval n
            (fails.map .elapsed ++ .elapsed succ :: rest)).trace = [] := by
  intro fails
  induction fails with
  | nil =>
    intro succ rest interval n _ hs hpos hsum
    have hw : wrapInt (n.Retries + 1) = n.Retries + 1 := by
      apply wrapInt_eq_self
      unfold isInt64 at hrange ⊢
      simp only [List.length_nil, Nat.cast_zero] at hsum
      omega
    rw [List.map_nil, List.nil_append, retryLoop_elapsed_success _ _ _ _ _ hs]
    simp [hw, attempts, published, deletes]
  | cons r fs ih =>
    intro succ rest interval n hfail hs hpos hsum
    have hr : r.isSuccess = false := hfail r (List.mem_cons_self _ _)
    have hfs : ∀ x ∈ fs, x.isSuccess = false := fun x hx => hfail x (List.mem_cons_of_mem _ hx)
    simp only [List.length_cons, Nat.cast_add, Nat.cast_one] at hsum
    have hw : wrapInt (n.Retries + 1) = n.Retries + 1 := by
      apply wrapInt_eq_self
      unfold isInt64 at hrange ⊢
      omega
    have hm : wrapInt (n.Retries + 1) ≠ cfg.MaxRetry := by
      rw [hw]; omega
    rw [List.map_cons, List.cons_append, retryLoop_elapsed_continue _ _ _ _ _ hr hm]
    have hpos1 : 0 ≤ wrapInt (n.Retries + 1) := by rw [hw]; omega
    have hsum1 : wrapInt (n.Retries + 1) + fs.length + 1 ≤ cfg.MaxRetry := by
      rw [hw]; omega
    obtain ⟨h1, h2, h3, h4⟩ :=
      ih succ rest (wrapInt (interval * cfg.RetryMultiplier))
        { n with Retries := wrapInt (n.Retries + 1) } hfs hs hpos1 hsum1
    have hret : wrapInt (n.Retries + 1) + (fs.length : Int) + 1
        = n.Retries + ((fs.length : Int) + 1) + 1 := by rw [hw]; ring
    simp only [hret] at h1 h3
    refine ⟨?_, ?_, ?_, ?_⟩
    · rw [h1]; simp [List.length_cons]
    · simp only [attempts, h2, List.length_cons]
    · simp only [published, h3, List.length_cons, Nat.cast_add, Nat.cast_one]
    · simp only [deletes, h4]

/-! ## Retry task: terminal outcomes -/

/-- C3 (the code on the whole domain of the claim, failing input included):
with `MaxRetry = N >= 1`, no shutdown and the first N retry attempts all
non-successes (transport error or any status of 300 and above, 410 included).
When the first attempt returns a response that is a retryable failure (not a
success, status neither in [300, 400) nor 410), `Notify` returns nil after
launching the retry task without publishing or deleting, and the retry task
makes exactly N attempts, then publishes exactly one notification, with status
FAILED and retry count N, and exits; it never calls the store's delete.  When
the first attempt is a transport error with no response, `Notify` panics
instead: it returns nothing, launches no retry task and nothing is published. -/
theorem retry_exhausts_at_MaxRetry (rh : Resthook) (userId : Int) (event : String)
    (s : Subscription) (out : List UInt8) (resp : PostResult)
    (script : List SelectEvent) (fails rest : List PostResult)
    (hN : 1 ≤ rh.config.MaxRetry) (hrange : isInt64 rh.config.MaxRetry)
    (hfind : rh.store.FindByUserId userId event = (some s, none))
    (hfirst : resp.isRetryable = true)
    (hshut : noShutdown script)
    (hresp : timerResponses script = fails ++ rest)
    (hlen : (fails.length : Int) = rh.config.MaxRetry)
    (hfail : ∀ r ∈ fails, r.isSuccess = false) :
    (Notify rh userId event (.ok out) resp).outcome = .returned none
      ∧ launched (Notify rh userId event (.ok out) resp).trace
          = [pendingNotification s out]
      ∧ published (Notify rh userId event (.ok out) resp).trace = []
      ∧ deletes (Notify rh userId event (.ok out) resp).trace = []
      ∧ (attempts (retry rh (pendingNotification s out) script).trace : Int)
          = rh.config.MaxRetry
      ∧ published (retry rh (pendingNotification s out) script).trace
          = [{ Subscription := s, Data := out, Status := .STATUS_FAILED,
               Retries := rh.config.MaxRetry }]
      ∧ (retry rh (pendingNotification s out) script).exit = .terminal
      ∧ deletes (retry rh (pendingNotification s out) script).trace = []
      ∧ (Notify rh userId event (.ok out) .transportError).outcome = .panicked
      ∧ launched (Notify rh userId event (.ok out) .transportError).trace = []
      ∧ published (Notify rh userId event (.ok out) .transportError).trace = [] := by
  have hpanic := Notify_no_response rh userId event s out hfind
  have hne : fails ≠ [] := by
    intro h
    rw [h] at hlen
    simp only [List.length_nil, Nat.cast_zero] at hlen
    omega
  have hsum : (pendingNotification s out).Retries + fails.length = rh.config.MaxRetry := by
    simp only [pendingNotification]
    omega
  have hpos : 0 ≤ (pendingNotification s out).Retries := by
    simp [pendingNotification]
  obtain ⟨_, h2, h3, h4⟩ :=
    retryLoop_exhaust rh.config hrange fails (rest.map .elapsed) rh.config.InitialRetry
      (pendingNotification s out) hne hfail hpos hsum
  have hrun : retry rh (pendingNotification s out) script
      = retryLoop rh.config rh.config.InitialRetry (pendingNotification s out)
          (fails.map .elapsed ++ rest.map .elapsed) := by
    unfold retry
    rw [retryLoop_eq_map_timerResponses _ _ _ _ hshut, hresp, List.map_append]
  rw [Notify_retryable rh userId event s out resp hfind hfirst, hrun, h2, h3, h4, hpanic]
  refine ⟨rfl, ?_, ?_, ?_, hlen, ?_, ?_, rfl, rfl, ?_, ?_⟩
  · simp [launched]
  · simp [published]
  · simp [deletes]
  · rfl
  · rw [(retryLoop_exhaust rh.config hrange fails (rest.map .elapsed)
      rh.config.InitialRetry (pendingNotification s out) hne hfail hpos hsum).1]
  · simp [launched]
  · simp [published]

theorem retry_exhausts_at_MaxRetry_witness :
    (1 : Int) ≤ (NewResthook sampleStore [testConfig]).config.MaxRetry
      ∧ isInt64 (NewResthook sampleStore [testConfig]).config.MaxRetry
      ∧ (PostResult.response 400).isRetryable = true
      ∧ noShutdown [.elapsed (.response 400), .elapsed (.response 400),
          .elapsed (.response 400)]
      ∧ (Notify (NewResthook sampleStore [testConfig]) 1 "post_created" (.ok [])
          (.response 400)).outcome = .returned none
      ∧ (attempts (retry (NewResthook sampleStore [testConfig])
          (pendingNotification sampleSubscription [])
          [.elapsed (.response 400), .elapsed (.response 400),
            .elapsed (.response 400)]).trace : Int) = 2
      ∧ published (retry (NewResthook sampleStore [testConfig])
          (pendingNotification sampleSubscription [])
          [.elapsed (.response 400), .elapsed (.response 400),
            .elapsed (.response 400)]).trace
          = [{ Subscription := sampleSubscription, Data := [],
               Status := .STATUS_FAILED, Retries := 2 }]
      ∧ (Notify (NewResthook sampleStore [testConfig]) 1 "post_created" (.ok [])
          .transportError).outcome = .panicked
      ∧ launched (Notify (NewResthook sampleStore [testConfig]) 1 "post_created" (.ok [])
          .transportError).trace = [] :=
  have h := retry_exhausts_at_MaxRetry (NewResthook sampleStore [testConfig]) 1
    "post_created" sampleSubscription [] (.response 400)
    [.elapsed (.response 400), .elapsed (.response 400), .elapsed (.response 400)]
    [.response 400, .response 400] [.response 400]
    (by decide) (by decide) rfl (by decide) (by decide) rfl rfl (by decide)
  ⟨by decide, by decide, by decide, by decide, h.1, h.2.2.2.2.1, h.2.2.2.2.2.1,
    h.2.2.2.2.2.2.2.2.1, h.2.2.2.2.2.2.2.2.2.1⟩

/-- C4 (the code on the whole domain of the claim, failing input included):
with `MaxRetry = N >= 1`, `1 <= k <= N` (k is one more than the number of
failed retries, so at least 1), no shutdown, retry attempts 1 to k-1
non-successes and retry attempt k a success.  When the first attempt returns a
response that is a retryable failure (not a success, status neither in
[300, 400) nor 410), `Notify` returns nil after launching the retry task, and
the retry task makes exactly k attempts (none after the successful one,
whatever the script still offers), publishes exactly one notification, with
status SUCCESS and retry count k, and exits.  When the first attempt is a
transport error with no response, `Notify` panics instead: it returns nothing,
launches no retry task and nothing is published. -/
theorem retry_succeeds_at_kth (rh : Resthook) (userId : Int) (event : String)
    (s : Subscription) (out : List UInt8) (resp : PostResult)
    (script : List SelectEvent) (fails : List PostResult) (succ : PostResult)
    (rest : List PostResult) (k : Nat)
    (hkN : (k : Int) ≤ rh.config.MaxRetry)
    (hrange : isInt64 rh.config.MaxRetry)
    (hfind : rh.store.FindByUserId userId event = (some s, none))
    (hfirst : resp.isRetryable = true)
    (hshut : noShutdown script)
    (hresp : timerResponses script = fails ++ succ :: rest)
    (hlen : fails.length + 1 = k)
    (hfail : ∀ r ∈ fails, r.isSuccess = false)
    (hsucc : succ.isSuccess = true) :
    (Notify rh userId event (.ok out) resp).outcome = .returned none
      ∧ launched (Notify rh userId event (.ok out) resp).trace
          = [pendingNotification s out]
      ∧ published (Notify rh userId event (.ok out) resp).trace = []
      ∧ attempts (retry rh (pendingNotification s out) script).trace = k
      ∧ published (retry rh (pendingNotification s out) script).trace
          = [{ Subscription := s, Data := out, Status := .STATUS_SUCCESS, Retries := k }]
      ∧ (retry rh (pendingNotification s out) script).exit = .terminal
      ∧ deletes (retry rh (pendingNotification s out) script).trace = []
      ∧ (Notify rh userId event (.ok out) .transportError).outcome = .panicked
      ∧ launched (Notify rh userId event (.ok out) .transportError).trace = []
      ∧ published (Notify rh userId event (.ok out) .transportError).trace = [] := by
  have hpanic := Notify_no_response rh userId event s out hfind
  have hpos : 0 ≤ (pendingNotification s out).Retries := by
    simp [pendingNotification]
  have hsum : (pendingNotification s out).Retries + fails.length + 1
      ≤ rh.config.MaxRetry := by
    simp only [pendingNotification]
    omega
  obtain ⟨h1, h2, h3, h4⟩ :=
    retryLoop_succeed rh.config hrange fails succ (rest.map .elapsed)
      rh.config.InitialRetry (pendingNotification s out) hfail hsucc hpos hsum
  have hrun : retry rh (pendingNotification s out) script
      = retryLoop rh.config rh.config.InitialRetry (pendingNotification s out)
          (fails.map .elapsed ++ .elapsed succ :: rest.map .elapsed) := by
    unfold retry
    rw [retryLoop_eq_map_timerResponses _ _ _ _ hshut, hresp, List.map_append,
      List.map_cons]
  have hret : (pendingNotification s out).Retries + (fails.length : Int) + 1 = (k : Int) := by
    simp only [pendingNotification]
    omega
  rw [hret] at h1 h3
  rw [Notify_retryable rh userId event s out resp hfind hfirst, hrun, h2, h3, h4, hpanic]
  refine ⟨rfl, ?_, ?_, hlen, ?_, ?_, rfl, rfl, ?_, ?_⟩
  · simp [launched]
  · simp [published]
  · rfl
  · rw [h1]
  · simp [launched]
  · simp [published]

theorem retry_succeeds_at_kth_witness :
    (1 : Nat) ≤ 2
      ∧ ((2 : Nat) : Int) ≤ (NewResthook sampleStore [testConfig]).config.MaxRetry
      ∧ (PostResult.response 400).isRetryable = true
      ∧ (PostResult.response 200).isSuccess = true
      ∧ attempts (retry (NewResthook sampleStore [testConfig])
          (pendingNotification sampleSubscription [])
          [.elapsed (.response 400), .elapsed (.response 200)]).trace = 2
      ∧ published (retry (NewResthook sampleStore [testConfig])
          (pendingNotification sampleSubscription [])
          [.elapsed (.response 400), .elapsed (.response 200)]).trace
          = [{ Subscription := sampleSubscription, Data := [],
               Status := .STATUS_SUCCESS, Retries := 2 }]
      ∧ (Notify (NewResthook sampleStore [testConfig]) 1 "post_created" (.ok [])
          .transportError).outcome = .panicked
      ∧ launched (Notify (NewResthook sampleStore [testConfig]) 1 "post_created" (.ok [])
          .transportError).trace = [] :=
  have h := retry_succeeds_at_kth (NewResthook sampleStore [testConfig]) 1
    "post_created" sampleSubscription [] (.response 400)
    [.elapsed (.response 400), .elapsed (.response 200)]
    [.response 400] (.response 200) [] 2
    (by decide) (by decide) rfl (by decide) (by decide) rfl rfl (by decide)
    (by decide)
  ⟨by decide, by decide, by decide, by decide, h.2.2.2.1, h.2.2.2.2.1,
    h.2.2.2.2.2.2.2.1, h.2.2.2.2.2.2.2.2.1⟩

/-! ## Retry task: runs that do not end -/

theorem published_append (t1 t2 : List Event) :
    published (t1 ++ t2) = published t1 ++ published t2 := by
  induction t1 with
  | nil => rfl
  | cons e t ih => cases e <;> simp [published, ih]

/-- Run in which every attempt fails and the counter never meets `MaxRetry`:
the task is still waiting, has published nothing, and its counter is the
wrapped number of attempts. -/
theorem retryLoop_all_fail (cfg : Config) :
    ∀ (fails : List PostResult) (interval : Int) (n : Notification),
      isInt64 n.Retries → (∀ r ∈ fails, r.isSuccess = false) →
      (∀ j : Nat, 1 ≤ j → j ≤ fails.length → wrapInt (n.Retries + j) ≠ cfg.MaxRetry) →
      (∃ next, (retryLoop cfg interval n (fails.map .elapsed)).exit = .waiting next)
        ∧ (retryLoop cfg interval n (fails.map .elapsed)).n
            = { n with Retries := wrapInt (n.Retries + fails.length) }
        ∧ attempts (retryLoop cfg interval n (fails.map .elapsed)).trace = fails.length
        ∧ published (retryLoop cfg interval n (fails.map .elapsed)).trace = []
        ∧ deletes (retryLoop cfg interval n (fails.map .elapsed)).trace = [] := by
  intro fails
  induction fails with
  | nil =>
    intro interval n hn _ _
    simp [retryLoop, attempts, published, deletes, wrapInt_eq_self hn]
  | cons r fs ih =>
    intro interval n hn hfail hne
    have hr : r.isSuccess = false := hfail r (List.mem_cons_self _ _)
    have hfs : ∀ x ∈ fs, x.isSuccess = false := fun x hx => hfail x (List.mem_cons_of_mem _ hx)
    have hm : wrapInt (n.Retries + 1) ≠ cfg.MaxRetry := by
      have := hne 1 (le_refl 1) (by simp)
      simpa using this
    have hne1 : ∀ j : Nat, 1 ≤ j → j ≤ fs.length →
        wrapInt (wrapInt (n.Retries + 1) + j) ≠ cfg.MaxRetry := by
      intro j hj1 hj2
      rw [wrapInt_add_wrapInt]
      have := hne (j + 1) (by omega) (by simp; omega)
      have e : n.Retries + 1 + (j : Int) = n.Retries + ((j + 1 : Nat) : Int) := by
        push_cast; ring
      rw [e]
      exact this
    rw [List.map_cons, retryLoop_elapsed_continue _ _ _ _ _ hr hm]
    obtain ⟨⟨next, h0⟩, h1, h2, h3, h4⟩ :=
      ih (wrapInt (interval * cfg.RetryMultiplier))
        { n with Retries := wrapInt (n.Retries + 1) } (wrapInt_isInt64 _) hfs hne1
    refine ⟨⟨next, h0⟩, ?_, ?_, ?_, ?_⟩
    · rw [h1]
      simp only [wrapInt_add_wrapInt, List.length_cons, Nat.cast_add, Nat.cast_one]
      have e : n.Retries + 1 + (fs.length : Int) = n.Retries + ((fs.length : Int) + 1) := by
        ring
      rw [e]
    · simp only [attempts, h2, List.length_cons]
    · simp only [published, h3]
    · simp only [deletes, h4]

/-- Duration of the timer that fired before each attempt: the j-th one (from 0)
is `time.Duration(interval) * time.Second` for the starting interval times the
j-th power of the multiplier, reduced to 64 bits. -/
theorem retryLoop_waits (cfg : Config) :
    ∀ (script : List SelectEvent) (interval : Int) (n : Notification) (j : Nat) (d : Int),
      (waits (retryLoop cfg interval n script).trace)[j]? = some d →
      d = durationNs (interval * cfg.RetryMultiplier ^ j) := by
  intro script
  induction script with
  | nil => intro interval n j d h; simp [retryLoop, waits] at h
  | cons e rest ih =>
    intro interval n j d h
    cases e with
    | closed => simp [retryLoop, waits] at h
    | received =>
      rw [retryLoop_received] at h
      exact ih interval n j d h
    | elapsed r =>
      cases hr : r.isSuccess with
      | true =>
        rw [retryLoop_elapsed_success _ _ _ _ _ hr] at h
        cases j with
        | zero => simp [waits] at h; simp [h]
        | succ j => simp [waits] at h
      | false =>
        by_cases hm : wrapInt (n.Retries + 1) = cfg.MaxRetry
        · rw [retryLoop_elapsed_exhausted _ _ _ _ _ hr hm] at h
          cases j with
          | zero => simp [waits] at h; simp [h]
          | succ j => simp [waits] at h
        · rw [retryLoop_elapsed_continue _ _ _ _ _ hr hm] at h
          cases j with
          | zero => simp [waits] at h; simp [h]
          | succ j =>
            simp only [waits, List.getElem?_cons_succ] at h
            rw [ih _ _ j d h]
            unfold durationNs
            rw [mul_assoc, wrapInt_mul_wrapInt, pow_succ]
            congr 1
            ring

theorem alwaysBadRequest_fails (count : Nat) :
    ∀ r ∈ List.replicate count (PostResult.response 400), r.isSuccess = false := by
  intro r hr
  rw [List.eq_of_mem_replicate hr]
  rfl

/-- With `MaxRetry = 0` and every attempt answered 400, as long as the number of
attempts is below 2^64 the task is still waiting with the wrapped counter. -/
theorem retryLoop_zeroConfig_waiting (count : Nat) (interval : Int) (s : Subscription)
    (out : List UInt8) (hcount : (count : Int) < 2 * intLimit) :
    (∃ next, (retryLoop zeroConfig interval (pendingNotification s out)
        (alwaysBadRequest count)).exit = .waiting next)
      ∧ (retryLoop zeroConfig interval (pendingNotification s out)
          (alwaysBadRequest count)).n
          = { pendingNotification s out with Retries := wrapInt count }
      ∧ published (retryLoop zeroConfig interval (pendingNotification s out)
          (alwaysBadRequest count)).trace = [] := by
  have hne : ∀ j : Nat, 1 ≤ j → j ≤ (List.replicate count (PostResult.response 400)).length →
      wrapInt ((pendingNotification s out).Retries + j) ≠ zeroConfig.MaxRetry := by
    intro j hj1 hj2
    rw [List.length_replicate] at hj2
    simp only [pendingNotification, zeroConfig]
    unfold intLimit at hcount
    unfold wrapInt intLimit
    omega
  have hz : isInt64 (pendingNotification s out).Retries := by
    simp only [pendingNotification]; decide
  obtain ⟨h0, h1, _, h3, _⟩ :=
    retryLoop_all_fail zeroConfig (List.replicate count (PostResult.response 400)) interval
      (pendingNotification s out) hz (alwaysBadRequest_fails count) hne
  unfold alwaysBadRequest
  refine ⟨h0, ?_, h3⟩
  rw [h1, List.length_replicate]
  simp [pendingNotification]

/-- With `MaxRetry = 0` and every attempt answered 400, the attempt that brings
the 64-bit counter back to 0 is terminal: one FAILED notification with retry
count 0 is published. -/
theorem retryLoop_zeroConfig_terminal (count : Nat) (interval : Int) (s : Subscription)
    (out : List UInt8) (hcount : (count : Int) + 1 = 2 * intLimit) :
    (retryLoop zeroConfig interval (pendingNotification s out)
        (alwaysBadRequest (count + 1))).exit = .terminal
      ∧ published (retryLoop zeroConfig interval (pendingNotification s out)
          (alwaysBadRequest (count + 1))).trace
          = [{ pendingNotification s out with Status := .STATUS_FAILED, Retries := 0 }] := by
  obtain ⟨⟨next, h0⟩, h1, h3⟩ :=
    retryLoop_zeroConfig_waiting count interval s out (by omega)
  have hsplit : alwaysBadRequest (count + 1)
      = alwaysBadRequest count ++ [.elapsed (.response 400)] := by
    unfold alwaysBadRequest
    rw [List.replicate_succ', List.map_append]
    rfl
  have hw : wrapInt (wrapInt (count : Int) + 1) = zeroConfig.MaxRetry := by
    rw [wrapInt_add_wrapInt, hcount]
    decide
  rw [hsplit, retryLoop_append zeroConfig _ _ _ _ next h0, h1]
  rw [retryLoop_elapsed_exhausted zeroConfig next
    { pendingNotification s out with Retries := wrapInt count } (.response 400) [] rfl hw]
  refine ⟨rfl, ?_⟩
  rw [published_append, h3]
  simp [published, hw, pendingNotification, zeroConfig]

theorem retry_NewResthook_cons (st : ResthookStore) (c : Config) (cs : List Config)
    (n : Notification) (script : List SelectEvent) :
    retry (NewResthook st (c :: cs)) n script = retryLoop c c.InitialRetry n script := rfl

/-- C10 as stated fails on a 64-bit counter.  With the config `Config{}` (all
fields 0, so `MaxRetry <= 0`) and every attempt answered 400: after 2^63 failed
retry attempts the retry count is -2^63, not 2^63; and the 2^64-th failed
attempt brings the count back to 0 = MaxRetry, so the task publishes a FAILED
notification and exits. -/
theorem retry_zeroConfig_counterexample :
    (NewResthook sampleStore [zeroConfig]).config.MaxRetry ≤ 0
      ∧ (retry (NewResthook sampleStore [zeroConfig])
          (pendingNotification sampleSubscription [])
          (alwaysBadRequest 9223372036854775808)).n.Retries = -9223372036854775808
      ∧ (retry (NewResthook sampleStore [zeroConfig])
          (pendingNotification sampleSubscription [])
          (alwaysBadRequest 9223372036854775808)).n.Retries
          ≠ ((9223372036854775808 : Nat) : Int)
      ∧ (retry (NewResthook sampleStore [zeroConfig])
          (pendingNotification sampleSubscription [])
          (alwaysBadRequest (18446744073709551615 + 1))).exit = .terminal
      ∧ published (retry (NewResthook sampleStore [zeroConfig])
          (pendingNotification sampleSubscription [])
          (alwaysBadRequest (18446744073709551615 + 1))).trace
          = [{ Subscription := sampleSubscription, Data := [],
               Status := .STATUS_FAILED, Retries := 0 }] := by
  have ha := (retryLoop_zeroConfig_waiting 9223372036854775808 zeroConfig.InitialRetry
    sampleSubscription []
    (by decide)).2.1
  have hb := retryLoop_zeroConfig_terminal 18446744073709551615 zeroConfig.InitialRetry
    sampleSubscription []
    (by decide)
  have hret : (retry (NewResthook sampleStore [zeroConfig])
      (pendingNotification sampleSubscription [])
      (alwaysBadRequest 9223372036854775808)).n.Retries = -9223372036854775808 := by
    rw [retry_NewResthook_cons, ha]
    decide
  refine ⟨by decide, hret, ?_, ?_, ?_⟩
  · rw [hret]
    decide
  · rw [retry_NewResthook_cons]
    exact hb.1
  · rw [retry_NewResthook_cons]
    exact hb.2

/-- C10, amended: a config passed to `NewResthook` replaces the defaults whole
(the dispatcher's config is exactly the first one passed, zero fields included).
With `MaxRetry <= 0`, a first attempt that returns a response which is a
retryable failure (not a success, status neither in [300, 400) nor 410; a
first attempt with no response is not covered), no shutdown and no successful
retry attempt: for every n below 2^63 (the range of
the 64-bit retry counter), after n failed retry attempts the notification still
has status PENDING and retry count n, nothing has been published, and the task
is waiting for another attempt. -/
theorem retry_nonpositive_MaxRetry (rh : Resthook) (userId : Int) (event : String)
    (s : Subscription) (out : List UInt8) (resp : PostResult)
    (script : List SelectEvent) (count : Nat)
    (hmax : rh.config.MaxRetry ≤ 0)
    (hfind : rh.store.FindByUserId userId event = (some s, none))
    (hfirst : resp.isRetryable = true)
    (hshut : noShutdown script)
    (hfail : ∀ r ∈ timerResponses script, r.isSuccess = false)
    (hcount : (timerResponses script).length = count)
    (hbound : (count : Int) < intLimit) :
    (∀ (st : ResthookStore) (c : Config) (cs : List Config),
        (NewResthook st (c :: cs)).config = c)
      ∧ launched (Notify rh userId event (.ok out) resp).trace
          = [pendingNotification s out]
      ∧ (retry rh (pendingNotification s out) script).n
          = { Subscription := s, Data := out, Status := .STATUS_PENDING, Retries := count }
      ∧ attempts (retry rh (pendingNotification s out) script).trace = count
      ∧ published (retry rh (pendingNotification s out) script).trace = []
      ∧ ∃ next, (retry rh (pendingNotification s out) script).exit = .waiting next := by
  have hz : isInt64 (pendingNotification s out).Retries := by
    simp only [pendingNotification]; decide
  have hne : ∀ j : Nat, 1 ≤ j → j ≤ (timerResponses script).length →
      wrapInt ((pendingNotification s out).Retries + j) ≠ rh.config.MaxRetry := by
    intro j hj1 hj2
    rw [hcount] at hj2
    simp only [pendingNotification]
    unfold intLimit at hbound
    unfold wrapInt intLimit
    omega
  obtain ⟨h0, h1, h2, h3, _⟩ :=
    retryLoop_all_fail rh.config (timerResponses script) rh.config.InitialRetry
      (pendingNotification s out) hz hfail hne
  have hrun : retry rh (pendingNotification s out) script
      = retryLoop rh.config rh.config.InitialRetry (pendingNotification s out)
          ((timerResponses script).map .elapsed) := by
    unfold retry
    rw [retryLoop_eq_map_timerResponses _ _ _ _ hshut]
  have hw : wrapInt ((pendingNotification s out).Retries + (count : Int)) = count := by
    simp only [pendingNotification]
    unfold intLimit at hbound
    unfold wrapInt intLimit
    omega
  rw [Notify_retryable rh userId event s out resp hfind hfirst, hrun, h1, h2, h3, hcount, hw]
  refine ⟨fun _ _ _ => rfl, ?_, rfl, rfl, rfl, ?_⟩
  · simp [launched]
  · exact h0

theorem retry_nonpositive_MaxRetry_witness :
    (NewResthook sampleStore [zeroConfig]).config.MaxRetry ≤ 0
      ∧ (PostResult.response 400).isRetryable = true
      ∧ noShutdown (alwaysBadRequest 3)
      ∧ ((3 : Nat) : Int) < intLimit
      ∧ (retry (NewResthook sampleStore [zeroConfig])
          (pendingNotification sampleSubscription []) (alwaysBadRequest 3)).n
          = { Subscription := sampleSubscription, Data := [],
              Status := .STATUS_PENDING, Retries := 3 }
      ∧ published (retry (NewResthook sampleStore [zeroConfig])
          (pendingNotification sampleSubscription []) (alwaysBadRequest 3)).trace = []
      ∧ ∃ next, (retry (NewResthook sampleStore [zeroConfig])
          (pendingNotification sampleSubscription []) (alwaysBadRequest 3)).exit
          = .waiting next :=
  have h := retry_nonpositive_MaxRetry (NewResthook sampleStore [zeroConfig]) 1
    "post_created" sampleSubscription [] (.response 400) (alwaysBadRequest 3) 3
    (by decide) rfl (by decide) (by decide) (by decide) (by decide) (by decide)
  ⟨by decide, by decide, by decide, by decide, h.2.2.1, h.2.2.2.2.1, h.2.2.2.2.2⟩

/-! ## Retry task: backoff intervals -/

/-- C8 as stated fails.  With `InitialRetry = 1`, `RetryMultiplier = 10^10`,
`MaxRetry = 2` and every attempt answered 400 the second retry is reached, and
the timer that precedes it is armed with `time.Duration(10^10) * time.Second`,
which overflows `int64`: the duration is -8446744073709551616 ns (the timer
fires at once), not 1 * (10^10)^1 seconds. -/
theorem retry_wait_counterexample :
    (waits (retry (NewResthook sampleStore [wideConfig])
        (pendingNotification sampleSubscription [])
        (alwaysBadRequest 2)).trace)[1]? = some (-8446744073709551616)
      ∧ (-8446744073709551616 : Int)
          ≠ wideConfig.InitialRetry * wideConfig.RetryMultiplier ^ (2 - 1) * Second
      ∧ wideConfig.inRange := by
  decide

/-- C8, amended: whenever the k-th retry attempt (k >= 1) is reached, the timer
the retry task waited on immediately before it was armed with
`time.Duration(interval) * time.Second`, which is
`InitialRetry * RetryMultiplier^(k-1)` seconds reduced to a 64-bit count of
nanoseconds; it is exactly `InitialRetry * RetryMultiplier^(k-1)` seconds
whenever that many nanoseconds fit in `int64`.  For a dispatcher constructed
without a config and three failing retry attempts, the timers before the 1st,
2nd and 3rd retry are 5, 15 and 45 seconds, the 3rd retry is the final one, and
no fourth timer is armed. -/
theorem retry_wait_before_kth (rh : Resthook) (n : Notification)
    (script : List SelectEvent) (k : Nat) (d : Int)
    (_hk : 1 ≤ k)
    (hreach : (waits (retry rh n script).trace)[k - 1]? = some d) :
    d = wrapInt (rh.config.InitialRetry * rh.config.RetryMultiplier ^ (k - 1) * Second)
      ∧ (isInt64 (rh.config.InitialRetry * rh.config.RetryMultiplier ^ (k - 1) * Second) →
          d = rh.config.InitialRetry * rh.config.RetryMultiplier ^ (k - 1) * Second)
      ∧ (∀ (st : ResthookStore) (s : Subscription) (out : List UInt8)
          (script3 : List SelectEvent) (r1 r2 r3 : PostResult) (rest : List PostResult),
          noShutdown script3 → timerResponses script3 = r1 :: r2 :: r3 :: rest →
          r1.isSuccess = false → r2.isSuccess = false → r3.isSuccess = false →
          waits (retry (NewResthook st []) (pendingNotification s out) script3).trace
              = [5 * Second, 15 * Second, 45 * Second]
            ∧ attempts (retry (NewResthook st []) (pendingNotification s out)
                script3).trace = 3
            ∧ (retry (NewResthook st []) (pendingNotification s out) script3).exit
                = .terminal) := by
  have hd : d = durationNs (rh.config.InitialRetry * rh.config.RetryMultiplier ^ (k - 1)) :=
    retryLoop_waits rh.config script rh.config.InitialRetry n (k - 1) d hreach
  refine ⟨hd, fun hfit => ?_, ?_⟩
  · rw [hd]
    exact wrapInt_eq_self hfit
  · intro st s out script3 r1 r2 r3 rest hshut hresp h1 h2 h3
    have hrun : retry (NewResthook st []) (pendingNotification s out) script3
        = retryLoop (NewResthook st []).config 5 (pendingNotification s out)
            (.elapsed r1 :: .elapsed r2 :: .elapsed r3 :: rest.map .elapsed) := by
      unfold retry
      rw [retryLoop_eq_map_timerResponses _ _ _ _ hshut, hresp]
      rfl
    rw [hrun]
    have e1 : wrapInt ((pendingNotification s out).Retries + 1) = 1 := by
      simp only [pendingNotification]; decide
    have c1 : wrapInt ((pendingNotification s out).Retries + 1)
        ≠ (NewResthook st []).config.MaxRetry := by
      rw [e1]
      show (1 : Int) ≠ DefaultMaxRetry
      decide
    rw [retryLoop_elapsed_continue _ _ _ _ _ h1 c1, e1]
    have c2 : wrapInt ((1 : Int) + 1) ≠ (NewResthook st []).config.MaxRetry := by
      show wrapInt ((1 : Int) + 1) ≠ DefaultMaxRetry
      decide
    rw [retryLoop_elapsed_continue _ _ _ _ _ h2 c2]
    have c3 : wrapInt (wrapInt ((1 : Int) + 1) + 1) = (NewResthook st []).config.MaxRetry := by
      show wrapInt (wrapInt ((1 : Int) + 1) + 1) = DefaultMaxRetry
      decide
    rw [retryLoop_elapsed_exhausted _ _ _ _ _ h3 c3]
    refine ⟨?_, ?_, rfl⟩
    · simp only [waits, NewResthook, DefaultRetryMultiplier]
      decide
    · simp only [attempts]

theorem retry_wait_before_kth_witness :
    1 ≤ 2
      ∧ (waits (retry (NewResthook sampleStore []) (pendingNotification sampleSubscription [])
          (alwaysBadRequest 3)).trace)[2 - 1]? = some 15000000000
      ∧ isInt64 ((NewResthook sampleStore []).config.InitialRetry
          * (NewResthook sampleStore []).config.RetryMultiplier ^ (2 - 1) * Second)
      ∧ (15000000000 : Int) = (NewResthook sampleStore []).config.InitialRetry
          * (NewResthook sampleStore []).config.RetryMultiplier ^ (2 - 1) * Second
      ∧ waits (retry (NewResthook sampleStore []) (pendingNotification sampleSubscription [])
          (alwaysBadRequest 3)).trace = [5 * Second, 15 * Second, 45 * Second]
      ∧ (retry (NewResthook sampleStore []) (pendingNotification sampleSubscription [])
          (alwaysBadRequest 3)).exit = .terminal :=
  have h := retry_wait_before_kth (NewResthook sampleStore [])
    (pendingNotification sampleSubscription []) (alwaysBadRequest 3) 2 15000000000
    (by decide) (by decide)
  have h3 := h.2.2 sampleStore sampleSubscription [] (alwaysBadRequest 3)
    (.response 400) (.response 400) (.response 400) [] (by decide) (by decide) rfl rfl rfl
  ⟨by decide, by decide, by decide, h.2.1 (by decide), h3.1, h3.2.2⟩

/-! ## Result channel: who receives a published notification -/

/-- C9 as stated fails.  Right after `NewResthook`, with `Notify` at the send of
its successful first attempt and no goroutine reading `GetResults()`, the send
is paired with the receive in the reaper's `select`: the publish completes, and
the notification is received and dropped by a goroutine of the dispatcher, not
by an observer. -/
theorem result_stream_counterexample :
    published (Notify (NewResthook sampleStore []) 1 "post_created" (.ok [])
        (.response 200)).trace = [sampleDelivered]
      ∧ (Sys.init.spawn (.sending sampleDelivered)).noObserver
      ∧ rendezvous (Sys.init.spawn (.sending sampleDelivered)) 1 0
          = some { closed := false, tasks := [.reaper, .exited], observed := [],
                   discarded := [sampleDelivered] } := by
  decide

/-- C9, amended: while the result channel is open, a publish completes without
any observer.  A send of `n` on the channel pairs with the receive in the
`select` of the goroutine started by `NewResthook`: the sender goes on, that
goroutine drops `n` and is back at its `select`, and nothing reaches the
observer.  In particular, right after `NewResthook` that goroutine takes the
publish of any `Notify`. -/
theorem publish_completes_with_reaper (s : Sys) (i j : Nat) (n : Notification)
    (hopen : s.closed = false)
    (hsend : s.tasks.get? i = some (.sending n))
    (hrecv : s.tasks.get? j = some .reaper) :
    rendezvous s i j
        = some { s with tasks := s.tasks.set i .exited, discarded := s.discarded ++ [n] }
      ∧ (s.tasks.set i .exited).get? j = some .reaper
      ∧ (s.tasks.set i .exited).get? i = some .exited
      ∧ (∀ m : Notification,
          rendezvous (Sys.init.spawn (.sending m)) 1 0
            = some { closed := false, tasks := [.reaper, .exited], observed := [],
                     discarded := [m] }) := by
  have hij : i ≠ j := by
    intro h
    subst h
    rw [hsend] at hrecv
    simp at hrecv
  have hi : i < s.tasks.length := by
    rcases Nat.lt_or_ge i s.tasks.length with h | h
    · exact h
    · rw [List.get?_eq_none.mpr h] at hsend
      simp at hsend
  refine ⟨?_, ?_, ?_, ?_⟩
  · unfold rendezvous
    rw [hsend, hrecv]
    simp [hopen, Goroutine.canReceive]
  · rw [List.get?_eq_getElem?, List.getElem?_set_ne hij, ← List.get?_eq_getElem?]
    exact hrecv
  · rw [List.get?_eq_getElem?, List.getElem?_set_self hi]
  · intro m
    simp [rendezvous, Sys.init, Sys.spawn, Goroutine.canReceive]

theorem publish_completes_with_reaper_witness :
    (Sys.init.spawn (.sending sampleDelivered)).closed = false
      ∧ (Sys.init.spawn (.sending sampleDelivered)).tasks.get? 1
          = some (.sending sampleDelivered)
      ∧ (Sys.init.spawn (.sending sampleDelivered)).tasks.get? 0 = some .reaper
      ∧ (Sys.init.spawn (.sending sampleDelivered)).noObserver
      ∧ rendezvous (Sys.init.spawn (.sending sampleDelivered)) 1 0
          = some { Sys.init.spawn (.sending sampleDelivered) with
                   tasks := (Sys.init.spawn (.sending sampleDelivered)).tasks.set 1 .exited,
                   discarded := (Sys.init.spawn (.sending sampleDelivered)).discarded
                     ++ [sampleDelivered] } :=
  ⟨rfl, rfl, rfl, by decide,
    (publish_completes_with_reaper (Sys.init.spawn (.sending sampleDelivered)) 1 0
      sampleDelivered rfl rfl rfl).1⟩

end Resthooks
